import Mathlib

/-!
Shallow embedding of the attendance-tracking server
(`src/server/routes.ts`, `src/server/storage.ts`, and the shared drizzle
schema).  Database tables are Lean lists of records; each storage method
and route handler is translated into a pure function from a `DB` state
(plus the request data the Express layer would have parsed) to a new `DB`
state and a response.

Modelling conventions:
* `gen_random_uuid()` / `uuidv4()` default ids and `new Date()` timestamps
  are passed in as explicit arguments (`fid`, `now`).
* The QR payload `JSON.stringify({ eventId, timestamp })` /
  `JSON.parse` round-trip is modelled by carrying the structured payload
  `QrPayload` directly: the check-in handler reads only `data.eventId`
  from the parsed object, which the model preserves exactly.
* bcrypt is an external collaborator; it is modelled by an injective
  `bhash` with `bcryptCompare p h = (h == bhash p)`, which captures the
  contract `verify(p, hash(p)) = true` and mismatch otherwise.
* `createdAt` columns (server-side defaults that no modelled route reads)
  are omitted from the record types.
-/

namespace AttendanceSys

/-- `users` table row (shared schema). -/
structure User where
  id : String
  email : String
  password : String
  role : String
  studentId : Option String
deriving DecidableEq, Repr

/-- `students` table row (shared schema). -/
structure Student where
  id : String
  studentId : String
  name : String
  courseId : String
  sectionId : String
  age : Option Nat
  email : Option String
  birthday : Option String
  profilePicture : Option String
deriving DecidableEq, Repr

/-- `courses` table row (shared schema). -/
structure Course where
  id : String
  name : String
  description : Option String
deriving DecidableEq, Repr

/-- `sections` table row (shared schema). -/
structure Sect where
  id : String
  courseId : String
  name : String
deriving DecidableEq, Repr

/-- The QR payload `{ eventId, timestamp }` serialized into
`qrCodeData`; JSON serialization is modelled as the identity. -/
structure QrPayload where
  eventId : String
  timestamp : Nat
deriving DecidableEq, Repr

/-- `events` table row (shared schema).  `qrCode` is the rendered image
data-URL, kept as an opaque string. -/
structure Event where
  id : String
  name : String
  description : Option String
  eventDate : String
  eventTime : String
  qrCode : Option String
  qrCodeData : QrPayload
  isActive : Bool
deriving DecidableEq, Repr

/-- `event_course_sections` junction table row (shared schema). -/
structure EventCourseSection where
  id : String
  eventId : String
  courseId : String
  sectionId : String
deriving DecidableEq, Repr

/-- `attendance` table row (shared schema).  The table has a primary key
on `id` only; there is no uniqueness constraint on
`(eventId, studentId)`. -/
structure AttendanceRow where
  id : String
  eventId : String
  studentId : String
  timeIn : Option Nat
  timeOut : Option Nat
deriving DecidableEq, Repr

/-- `system_settings` table row (shared schema). -/
structure SettingsRow where
  id : String
  systemName : String
  qrCodeEnabled : Bool
  updatedAt : Nat
deriving DecidableEq, Repr

/-- The database: one list per table. -/
structure DB where
  users : List User
  students : List Student
  courses : List Course
  sections : List Sect
  events : List Event
  eventCourseSections : List EventCourseSection
  attendance : List AttendanceRow
  systemSettings : List SettingsRow
deriving DecidableEq, Repr

/-- An HTTP error response `res.status(s).json({ message: m })`. -/
structure ApiErr where
  status : Nat
  message : String
deriving DecidableEq, Repr

/-! ## Storage layer (`src/server/storage.ts`) -/

/-- `DatabaseStorage.getUserByEmail`: first `users` row with the email. -/
def getUserByEmail (db : DB) (email : String) : Option User :=
  db.users.find? (fun u => u.email == email)

/-- `DatabaseStorage.createUser`: insert a row (id supplied as `fid`). -/
def createUser (db : DB) (u : User) : DB × User :=
  ({ db with users := db.users ++ [u] }, u)

/-- `DatabaseStorage.getStudentByStudentId`: first `students` row with the
human-assigned `studentId`.  (The SQL left-joins course and section rows
onto the result; the joined objects are not read by any modelled route,
so the student row itself is returned.) -/
def getStudentByStudentId (db : DB) (sid : String) : Option Student :=
  db.students.find? (fun s => s.studentId == sid)

/-- Partial student patch (`Partial<InsertStudent>`). -/
structure StudentPatch where
  studentId : Option String := none
  name : Option String := none
  courseId : Option String := none
  sectionId : Option String := none
  age : Option Nat := none
  email : Option String := none
  birthday : Option String := none
  profilePicture : Option String := none
deriving DecidableEq, Repr

/-- Apply a drizzle `.set(patch)` to a student row: only supplied columns
change. -/
def applyStudentPatch (s : Student) (p : StudentPatch) : Student :=
  { s with
    studentId := p.studentId.getD s.studentId
    name := p.name.getD s.name
    courseId := p.courseId.getD s.courseId
    sectionId := p.sectionId.getD s.sectionId
    age := p.age.orElse (fun _ => s.age)
    email := p.email.orElse (fun _ => s.email)
    birthday := p.birthday.orElse (fun _ => s.birthday)
    profilePicture := p.profilePicture.orElse (fun _ => s.profilePicture) }

/-- `DatabaseStorage.updateStudent`: update the row with primary key `id`
and return the updated row (first returned row, `undefined` if none). -/
def updateStudent (db : DB) (id : String) (p : StudentPatch) :
    DB × Option Student :=
  let rows := db.students.map (fun s =>
    if s.id == id then applyStudentPatch s p else s)
  ({ db with students := rows }, rows.find? (fun s => s.id == id))

/-- `DatabaseStorage.getAttendance`: first `attendance` row matching both
`eventId` and `studentId`. -/
def getAttendance (db : DB) (eventId studentId : String) :
    Option AttendanceRow :=
  db.attendance.find? (fun a =>
    a.eventId == eventId && a.studentId == studentId)

/-- `DatabaseStorage.createAttendance`: insert a row (id supplied). -/
def createAttendance (db : DB) (a : AttendanceRow) : DB × AttendanceRow :=
  ({ db with attendance := db.attendance ++ [a] }, a)

/-- `DatabaseStorage.updateAttendance` restricted to the one patch the
routes issue, `{ timeOut: new Date() }`: set `timeOut` on the row with
primary key `aid` and return the updated row. -/
def updateAttendanceTimeOut (db : DB) (aid : String) (t : Nat) :
    DB × Option AttendanceRow :=
  let rows := db.attendance.map (fun a =>
    if a.id == aid then { a with timeOut := some t } else a)
  ({ db with attendance := rows }, rows.find? (fun a => a.id == aid))

/-- `DatabaseStorage.getEventCourseSections`: all junction rows for an
event.  (The SQL left-joins course and section rows; no modelled route
reads the joined objects, so the junction rows themselves are returned.) -/
def getEventCourseSections (db : DB) (eventId : String) :
    List EventCourseSection :=
  db.eventCourseSections.filter (fun e => e.eventId == eventId)

/-- `DatabaseStorage.getAllEvents`: every event together with its
`eventCourseSections`. -/
def getAllEvents (db : DB) : List (Event × List EventCourseSection) :=
  db.events.map (fun ev => (ev, getEventCourseSections db ev.id))

/-- Partial event patch (`Partial<InsertEvent>` plus the QR columns). -/
structure EventPatch where
  name : Option String := none
  description : Option String := none
  eventDate : Option String := none
  eventTime : Option String := none
  qrCode : Option String := none
  qrCodeData : Option QrPayload := none
  isActive : Option Bool := none
deriving DecidableEq, Repr

/-- Apply a drizzle `.set(patch)` to an event row. -/
def applyEventPatch (ev : Event) (p : EventPatch) : Event :=
  { ev with
    name := p.name.getD ev.name
    description := p.description.orElse (fun _ => ev.description)
    eventDate := p.eventDate.getD ev.eventDate
    eventTime := p.eventTime.getD ev.eventTime
    qrCode := p.qrCode.orElse (fun _ => ev.qrCode)
    qrCodeData := p.qrCodeData.getD ev.qrCodeData
    isActive := p.isActive.getD ev.isActive }

/-- `DatabaseStorage.updateEvent`: update the row with primary key `id`
and return the updated row. -/
def updateEvent (db : DB) (id : String) (p : EventPatch) :
    DB × Option Event :=
  let rows := db.events.map (fun ev =>
    if ev.id == id then applyEventPatch ev p else ev)
  ({ db with events := rows }, rows.find? (fun ev => ev.id == id))

/-- `DatabaseStorage.getSystemSettings`: `select … limit 1`, i.e. the
first row if any. -/
def getSystemSettings (db : DB) : Option SettingsRow :=
  db.systemSettings.head?

/-- Partial settings patch (`Partial<InsertSystemSettings>`). -/
structure SettingsPatch where
  systemName : Option String := none
  qrCodeEnabled : Option Bool := none
deriving DecidableEq, Repr

/-- `DatabaseStorage.updateSystemSettings`: if a row exists, update it
(spreading the patch and stamping `updatedAt`); otherwise insert a new
row, missing columns taking their schema defaults. -/
def updateSystemSettings (db : DB) (p : SettingsPatch) (now : Nat)
    (fid : String) : DB × SettingsRow :=
  match getSystemSettings db with
  | some existing =>
    let updated : SettingsRow :=
      { existing with
        systemName := p.systemName.getD existing.systemName
        qrCodeEnabled := p.qrCodeEnabled.getD existing.qrCodeEnabled
        updatedAt := now }
    let rows := db.systemSettings.map (fun r =>
      if r.id == existing.id then updated else r)
    ({ db with systemSettings := rows }, updated)
  | none =>
    let created : SettingsRow :=
      { id := fid
        systemName := p.systemName.getD "Attendance System"
        qrCodeEnabled := p.qrCodeEnabled.getD true
        updatedAt := now }
    ({ db with systemSettings := db.systemSettings ++ [created] }, created)

/-! ## External collaborators -/

/-- bcrypt hashing, modelled injectively. -/
def bhash (plaintext : String) : String :=
  "bcrypt$2b$10$" ++ plaintext

/-- `bcrypt.compare(plaintext, digest)`. -/
def bcryptCompare (plaintext digest : String) : Bool :=
  digest == bhash plaintext

/-- `QRCode.toDataURL` of the serialized payload, opaque image string. -/
def qrToDataURL (p : QrPayload) : String :=
  "data:image/png;qr$" ++ p.eventId ++ "$" ++ toString p.timestamp

/-! ## Check-in (`POST /api/attendance/checkin`, routes.ts 488-545) -/

/-- Successful check-in response bodies. -/
inductive CheckinOk where
  /-- `{ type: "in", attendance }` -/
  | tin (attendance : AttendanceRow)
  /-- `{ type: "out", attendance: updated }` -/
  | tout (attendance : Option AttendanceRow)
deriving DecidableEq, Repr

/-- The lookup phase of the check-in handler: read the attendance row for
the pair (routes.ts 522). -/
def checkinLookup (db : DB) (eventId studentId : String) :
    Option AttendanceRow :=
  getAttendance db eventId studentId

/-- The acting phase of the check-in handler, applied to the row it
observed (routes.ts 524-541): create with `timeIn` when absent, set
`timeOut` when open, reject when complete. -/
def checkinAct (db : DB) (eventId studentId : String)
    (found : Option AttendanceRow) (now : Nat) (fid : String) :
    DB × Except ApiErr CheckinOk :=
  match found with
  | none =>
    let created := (createAttendance db
      { id := fid, eventId := eventId, studentId := studentId
        timeIn := some now, timeOut := none })
    (created.1, .ok (.tin created.2))
  | some att =>
    if att.timeOut = none then
      let updated := updateAttendanceTimeOut db att.id now
      (updated.1, .ok (.tout updated.2))
    else
      (db, .error ⟨400, "Attendance already complete"⟩)

/-- The attendance state machine: lookup then act (routes.ts 521-541). -/
def checkinCore (db : DB) (eventId studentId : String) (now : Nat)
    (fid : String) : DB × Except ApiErr CheckinOk :=
  checkinAct db eventId studentId (checkinLookup db eventId studentId)
    now fid

/-- Request body of `POST /api/attendance/checkin` (after JSON parsing of
the supplied `qrCodeData` string, which the handler only reads
`.eventId` from). -/
structure CheckinBody where
  qrCodeData : Option QrPayload := none
  studentId : Option String := none
  eventId : Option String := none
deriving DecidableEq, Repr

/-- The full check-in handler (routes.ts 488-545): QR path resolves the
student from the authenticated user, manual path from the supplied
human-readable studentId; both converge on `checkinCore`. -/
def checkin (db : DB) (user : User) (body : CheckinBody) (now : Nat)
    (fid : String) : DB × Except ApiErr CheckinOk :=
  match body.qrCodeData with
  | some payload =>
    match user.studentId with
    | none => (db, .error ⟨400, "Not a student account"⟩)
    | some usid =>
      match getStudentByStudentId db usid with
      | none => (db, .error ⟨404, "Student not found"⟩)
      | some st => checkinCore db payload.eventId st.id now fid
  | none =>
    match body.studentId, body.eventId with
    | some msid, some meid =>
      match getStudentByStudentId db msid with
      | none => (db, .error ⟨404, "Student not found"⟩)
      | some st => checkinCore db meid st.id now fid
    | _, _ => (db, .error ⟨400, "Invalid check-in data"⟩)

/-! ## Auth routes (routes.ts 103-179) -/

/-- Successful login response body `{ token, user: {...} }`. -/
structure LoginOk where
  token : String
  userId : String
  email : String
  role : String
  studentId : Option String
deriving DecidableEq, Repr

/-- `jwt.sign({ userId }, secret, 7d)`, modelled as an opaque injective
token constructor. -/
def jwtSign (userId : String) : String :=
  "jwt$" ++ userId

/-- `POST /api/auth/login` (routes.ts 103-129): look the user up by
email; a missing user or a failed bcrypt comparison takes the same
branch and returns the same 401 response. -/
def login (db : DB) (email password : String) : Except ApiErr LoginOk :=
  let user := getUserByEmail db email
  match user with
  | some u =>
    if bcryptCompare password u.password then
      .ok { token := jwtSign u.id, userId := u.id, email := u.email
            role := u.role, studentId := u.studentId }
    else
      .error ⟨401, "Invalid credentials"⟩
  | none => .error ⟨401, "Invalid credentials"⟩

/-- `POST /api/auth/register` (routes.ts 131-179): require an existing
student row for the supplied human studentId, reject an already-used
email, then hash the password, enrich the student row, and create the
user account.  `profilePictureUrl` is the data-URL when a file was
uploaded, `""` otherwise. -/
def register (db : DB) (studentId email password : String) (age : Nat)
    (birthday : String) (profilePictureUrl : String) (fid : String) :
    DB × Except ApiErr String :=
  match getStudentByStudentId db studentId with
  | none => (db, .error ⟨404, "Student ID not found in system"⟩)
  | some student =>
    match getUserByEmail db email with
    | some _ => (db, .error ⟨400, "Email already registered"⟩)
    | none =>
      let hashedPassword := bhash password
      let db1 := (updateStudent db student.id
        { age := some age, email := some email, birthday := some birthday
          profilePicture := some profilePictureUrl }).1
      let db2 := (createUser db1
        { id := fid, email := email, password := hashedPassword
          role := "student", studentId := some studentId }).1
      (db2, .ok "Registration successful")

/-! ## QR regeneration (`POST /api/events/:id/regenerate-qr`,
routes.ts 471-485) -/

/-- Regenerate the QR payload and image of an event: build a fresh
payload from the event id and the current time and store both columns on
the event row.  (The route is admin-gated; the gate is modelled in
`regenerateQrRoute`.) -/
def regenerateQr (db : DB) (id : String) (now : Nat) :
    DB × Option Event :=
  let qrCodeData : QrPayload := { eventId := id, timestamp := now }
  let qrCode := qrToDataURL qrCodeData
  updateEvent db id { qrCodeData := some qrCodeData, qrCode := some qrCode }

/-- The full regenerate-qr handler with its admin gate. -/
def regenerateQrRoute (db : DB) (user : User) (id : String) (now : Nat) :
    DB × Except ApiErr (Option Event) :=
  if user.role != "admin" then
    (db, .error ⟨403, "Admin access required"⟩)
  else
    let r := regenerateQr db id now
    (r.1, .ok r.2)

/-! ## Student events listing (`GET /api/student/events`,
routes.ts 614-642) -/

/-- The filter of the student-events handler: keep the events one of
whose `eventCourseSections` matches the student's own course and
section. -/
def studentEventsFilter (student : Student)
    (allEvents : List (Event × List EventCourseSection)) :
    List (Event × List EventCourseSection) :=
  allEvents.filter (fun p =>
    p.2.any (fun ecs =>
      ecs.courseId == student.courseId &&
      ecs.sectionId == student.sectionId))

/-- `GET /api/student/events`: student-gated; resolve the student from
the authenticated user, then filter all events by the association match
and annotate each with the pair's attendance row. -/
def studentEventsRoute (db : DB) (user : User) :
    Except ApiErr (List (Event × List EventCourseSection ×
      Option AttendanceRow)) :=
  if user.role != "student" then
    .error ⟨403, "Student access required"⟩
  else
    -- a user row with no resolvable student makes the handler throw on
    -- `student.courseId`, caught as a 500 by the route's catch block
    match user.studentId with
    | none => .error ⟨500, "Cannot read properties of undefined"⟩
    | some usid =>
      match getStudentByStudentId db usid with
      | none => .error ⟨500, "Cannot read properties of undefined"⟩
      | some student =>
        .ok ((studentEventsFilter student (getAllEvents db)).map
          (fun p => (p.1, p.2, getAttendance db p.1.id student.id)))

/-- The list of events the handler returns, without annotations: the
shape claims about visibility quantify over this list. -/
def visibleEvents (db : DB) (student : Student) : List Event :=
  (studentEventsFilter student (getAllEvents db)).map (fun p => p.1)

/-- Flip the `isActive` flag of one event, leaving everything else of
the database unchanged (used to state that visibility ignores
`isActive`). -/
def setEventActive (db : DB) (id : String) (b : Bool) : DB :=
  { db with events := db.events.map (fun ev =>
      if ev.id == id then { ev with isActive := b } else ev) }

/-! ## Admin CRUD routes (routes.ts 197-468)

Each create/update/delete handler first checks
`req.user.role !== "admin"` and answers 403 before touching storage; the
list (GET) handlers run behind `authMiddleware` only, with no role
check. -/

/-- The 403 response body of every admin gate. -/
def adminRequired : ApiErr := ⟨403, "Admin access required"⟩

/-- Validated body of `POST /api/students` (insertStudentSchema). -/
structure InsertStudent where
  studentId : String
  name : String
  courseId : String
  sectionId : String
  age : Option Nat := none
  email : Option String := none
  birthday : Option String := none
  profilePicture : Option String := none
deriving DecidableEq, Repr

/-- `GET /api/students`: no role check; return all students.  (The SQL
left-joins course and section rows onto each result; the joined objects
are dropped here as no claim reads them.) -/
def getStudentsRoute (db : DB) (user : User) :
    DB × Except ApiErr (List Student) :=
  (db, .ok db.students)

/-- `POST /api/students` (admin only). -/
def postStudentsRoute (db : DB) (user : User) (b : InsertStudent)
    (fid : String) : DB × Except ApiErr Student :=
  if user.role != "admin" then (db, .error adminRequired)
  else
    let st : Student :=
      { id := fid, studentId := b.studentId, name := b.name
        courseId := b.courseId, sectionId := b.sectionId, age := b.age
        email := b.email, birthday := b.birthday
        profilePicture := b.profilePicture }
    ({ db with students := db.students ++ [st] }, .ok st)

/-- `PUT /api/students/:id` (admin only). -/
def putStudentRoute (db : DB) (user : User) (id : String)
    (p : StudentPatch) : DB × Except ApiErr (Option Student) :=
  if user.role != "admin" then (db, .error adminRequired)
  else
    let r := updateStudent db id p
    (r.1, .ok r.2)

/-- `DELETE /api/students/:id` (admin only). -/
def deleteStudentRoute (db : DB) (user : User) (id : String) :
    DB × Except ApiErr String :=
  if user.role != "admin" then (db, .error adminRequired)
  else
    ({ db with students := db.students.filter (fun s => !(s.id == id)) },
      .ok "Student deleted")

/-- Validated body of `POST /api/courses` (insertCourseSchema). -/
structure InsertCourse where
  name : String
  description : Option String := none
deriving DecidableEq, Repr

/-- Partial course patch (`Partial<InsertCourse>`). -/
structure CoursePatch where
  name : Option String := none
  description : Option String := none
deriving DecidableEq, Repr

/-- `GET /api/courses`: no role check. -/
def getCoursesRoute (db : DB) (user : User) :
    DB × Except ApiErr (List Course) :=
  (db, .ok db.courses)

/-- `POST /api/courses` (admin only). -/
def postCoursesRoute (db : DB) (user : User) (b : InsertCourse)
    (fid : String) : DB × Except ApiErr Course :=
  if user.role != "admin" then (db, .error adminRequired)
  else
    let c : Course := { id := fid, name := b.name
                        description := b.description }
    ({ db with courses := db.courses ++ [c] }, .ok c)

/-- `PUT /api/courses/:id` (admin only). -/
def putCourseRoute (db : DB) (user : User) (id : String)
    (p : CoursePatch) : DB × Except ApiErr (Option Course) :=
  if user.role != "admin" then (db, .error adminRequired)
  else
    let rows := db.courses.map (fun c =>
      if c.id == id then
        { c with name := p.name.getD c.name
                 description := p.description.orElse
                   (fun _ => c.description) }
      else c)
    ({ db with courses := rows }, .ok (rows.find? (fun c => c.id == id)))

/-- `DELETE /api/courses/:id` (admin only). -/
def deleteCourseRoute (db : DB) (user : User) (id : String) :
    DB × Except ApiErr String :=
  if user.role != "admin" then (db, .error adminRequired)
  else
    ({ db with courses := db.courses.filter (fun c => !(c.id == id)) },
      .ok "Course deleted")

/-- Validated body of `POST /api/sections` (insertSectionSchema). -/
structure InsertSect where
  courseId : String
  name : String
deriving DecidableEq, Repr

/-- Partial section patch (`Partial<InsertSection>`). -/
structure SectPatch where
  courseId : Option String := none
  name : Option String := none
deriving DecidableEq, Repr

/-- `GET /api/sections`: no role check. -/
def getSectionsRoute (db : DB) (user : User) :
    DB × Except ApiErr (List Sect) :=
  (db, .ok db.sections)

/-- `POST /api/sections` (admin only). -/
def postSectionsRoute (db : DB) (user : User) (b : InsertSect)
    (fid : String) : DB × Except ApiErr Sect :=
  if user.role != "admin" then (db, .error adminRequired)
  else
    let s : Sect := { id := fid, courseId := b.courseId, name := b.name }
    ({ db with sections := db.sections ++ [s] }, .ok s)

/-- `PUT /api/sections/:id` (admin only). -/
def putSectionRoute (db : DB) (user : User) (id : String)
    (p : SectPatch) : DB × Except ApiErr (Option Sect) :=
  if user.role != "admin" then (db, .error adminRequired)
  else
    let rows := db.sections.map (fun s =>
      if s.id == id then
        { s with courseId := p.courseId.getD s.courseId
                 name := p.name.getD s.name }
      else s)
    ({ db with sections := rows }, .ok (rows.find? (fun s => s.id == id)))

/-- `DELETE /api/sections/:id` (admin only). -/
def deleteSectionRoute (db : DB) (user : User) (id : String) :
    DB × Except ApiErr String :=
  if user.role != "admin" then (db, .error adminRequired)
  else
    ({ db with sections := db.sections.filter (fun s => !(s.id == id)) },
      .ok "Section deleted")

/-- Validated body of `POST /api/events` (insertEventSchema; `isActive`
has a schema default of `true`, so it is optional in the insert). -/
structure InsertEvent where
  name : String
  description : Option String := none
  eventDate : String
  eventTime : String
  isActive : Option Bool := none
deriving DecidableEq, Repr

/-- A `{ courseId, sectionId }` element of the `courseSections` array
sent alongside event creation/update. -/
structure CourseSectionRef where
  courseId : String
  sectionId : String
deriving DecidableEq, Repr

/-- `GET /api/events`: no role check; all events with their
associations. -/
def getEventsRoute (db : DB) (user : User) :
    DB × Except ApiErr (List (Event × List EventCourseSection)) :=
  (db, .ok (getAllEvents db))

/-- `POST /api/events` (admin only, routes.ts 386-426): generate a fresh
uuid (`quuid`) and timestamp them into the QR payload, render the QR
image, insert the event (row id `fid` from the database default), then
insert one association row per supplied course-section (ids `csIds`). -/
def postEventsRoute (db : DB) (user : User) (b : InsertEvent)
    (courseSections : List CourseSectionRef) (now : Nat)
    (quuid fid : String) (csIds : List String) :
    DB × Except ApiErr Event :=
  if user.role != "admin" then (db, .error adminRequired)
  else
    let qrCodeData : QrPayload := { eventId := quuid, timestamp := now }
    let qrCode := qrToDataURL qrCodeData
    let ev : Event :=
      { id := fid, name := b.name, description := b.description
        eventDate := b.eventDate, eventTime := b.eventTime
        qrCode := some qrCode, qrCodeData := qrCodeData
        isActive := b.isActive.getD true }
    let ecsRows := (courseSections.zip csIds).map (fun ci =>
      { id := ci.2, eventId := ev.id, courseId := ci.1.courseId
        sectionId := ci.1.sectionId : EventCourseSection })
    ({ db with events := db.events ++ [ev]
               eventCourseSections := db.eventCourseSections ++ ecsRows },
      .ok ev)

/-- `PUT /api/events/:id` (admin only, routes.ts 428-454): patch the
event row; when a `courseSections` array is supplied, drop the event's
association rows and recreate them. -/
def putEventRoute (db : DB) (user : User) (id : String) (p : EventPatch)
    (courseSections : Option (List CourseSectionRef))
    (csIds : List String) : DB × Except ApiErr (Option Event) :=
  if user.role != "admin" then (db, .error adminRequired)
  else
    let r := updateEvent db id p
    match courseSections with
    | none => (r.1, .ok r.2)
    | some cs =>
      let kept := r.1.eventCourseSections.filter
        (fun e => !(e.eventId == id))
      let ecsRows := (cs.zip csIds).map (fun ci =>
        { id := ci.2, eventId := id, courseId := ci.1.courseId
          sectionId := ci.1.sectionId : EventCourseSection })
      ({ r.1 with eventCourseSections := kept ++ ecsRows }, .ok r.2)

/-- `DELETE /api/events/:id` (admin only): delete the event's
association rows, then the event. -/
def deleteEventRoute (db : DB) (user : User) (id : String) :
    DB × Except ApiErr String :=
  if user.role != "admin" then (db, .error adminRequired)
  else
    ({ db with
        eventCourseSections := db.eventCourseSections.filter
          (fun e => !(e.eventId == id))
        events := db.events.filter (fun ev => !(ev.id == id)) },
      .ok "Event deleted")

/-- `PUT /api/settings` (admin only, routes.ts 676-691). -/
def putSettingsRoute (db : DB) (user : User) (p : SettingsPatch)
    (now : Nat) (fid : String) : DB × Except ApiErr SettingsRow :=
  if user.role != "admin" then (db, .error adminRequired)
  else
    let r := updateSystemSettings db p now fid
    (r.1, .ok r.2)

/-! ## Race model -/

/-- Two check-in calls for the same pair interleaved at the storage
layer: both perform their lookup against the same initial state before
either write lands (the double-tap race of spec §5).  Each call is the
lookup phase followed by the acting phase of the real handler. -/
def checkinRace (db : DB) (e s : String) (t1 t2 : Nat)
    (fid1 fid2 : String) : DB :=
  let o1 := checkinLookup db e s
  let o2 := checkinLookup db e s
  let db1 := (checkinAct db e s o1 t1 fid1).1
  (checkinAct db1 e s o2 t2 fid2).1

/-- Number of attendance rows stored for a pair. -/
def attendanceCount (db : DB) (e s : String) : Nat :=
  db.attendance.countP (fun a => a.eventId == e && a.studentId == s)

/-! ## Concrete example fixtures -/

/-- The empty database. -/
def emptyDB : DB := ⟨[], [], [], [], [], [], [], []⟩

/-- Example: database holding one open attendance row for ("E", "S"). -/
def exDBOpen : DB :=
  { emptyDB with attendance := [⟨"a1", "E", "S", some 5, none⟩] }

/-- Example: database holding one completed attendance row for
("E", "S"). -/
def exDBClosed : DB :=
  { emptyDB with attendance := [⟨"a1", "E", "S", some 5, some 6⟩] }

/-- Example student row seeded by an admin (not yet self-registered). -/
def exStudent : Student :=
  ⟨"st1", "S-1", "Ana", "C1", "SecA", none, none, none, none⟩

/-- Example: database holding only the seeded student row. -/
def exDBReg : DB := { emptyDB with students := [exStudent] }

/-- Example user account claiming email `a@b.c`. -/
def exUser : User := ⟨"u1", "a@b.c", bhash "pw", "student", some "S-1"⟩

/-- Example: seeded student plus a user already claiming `a@b.c`. -/
def exDBRegTaken : DB := { exDBReg with users := [exUser] }

/-- First write to an empty settings table, used by the C6 witness. -/
def exDBSettings : DB :=
  (updateSystemSettings emptyDB ⟨some "My School", none⟩ 1 "s1").1

/-- Example admin account (as seeded). -/
def adminUser : User :=
  ⟨"u0", "admin@attendance.com", bhash "admin123", "admin", none⟩

/-- Example student account linked to `exStudent`. -/
def studentUser : User := ⟨"u1", "ana@x.y", bhash "pw", "student",
  some "S-1"⟩

/-- Example event whose QR payload was issued at timestamp 1. -/
def exEvent : Event :=
  ⟨"E1", "Orientation", none, "2025-01-01", "18:00",
    some (qrToDataURL ⟨"E1", 1⟩), ⟨"E1", 1⟩, true⟩

/-- Example: the event, the student it is for, and their accounts. -/
def exDBQr : DB :=
  { emptyDB with users := [adminUser, studentUser]
                 students := [exStudent]
                 events := [exEvent] }

/-! ## Helper lemmas -/

/-- `find?` commutes with a `map` whose function does not change the
predicate's verdict. -/
theorem find?_map_of_pred_invariant {α : Type} {p : α → Bool}
    {f : α → α} (h : ∀ a, p (f a) = p a) (l : List α) :
    (l.map f).find? p = (l.find? p).map f := by
  have hpf : (p ∘ f) = p := funext h
  rw [List.find?_map, hpf]

/-- Updating the single row carrying a primary key (ids pairwise
distinct) and then selecting by that key returns exactly the updated
row. -/
theorem attendance_find?_update (t : Nat) (aid : String)
    (l : List AttendanceRow)
    (hnd : (l.map (fun r => r.id)).Nodup)
    (att : AttendanceRow) (ha : att ∈ l) (hid : att.id = aid) :
    (l.map (fun r =>
      if r.id == aid then { r with timeOut := some t } else r)).find?
      (fun r => r.id == aid) = some { att with timeOut := some t } := by
  induction l with
  | nil => cases ha
  | cons x xs ih =>
    rw [List.map_cons, List.nodup_cons] at hnd
    by_cases hx : x.id = aid
    · have hxa : x = att := by
        rcases List.mem_cons.mp ha with rfl | hmem
        · rfl
        · exfalso
          apply hnd.1
          have hin : att.id ∈ List.map (fun r => r.id) xs :=
            List.mem_map_of_mem (fun r => r.id) hmem
          rwa [show att.id = x.id from hid.trans hx.symm] at hin
      subst hxa
      simp [hx, List.find?_cons]
    · have hmem : att ∈ xs := by
        rcases List.mem_cons.mp ha with rfl | hmem
        · exact absurd hid hx
        · exact hmem
      have hxne : (x.id == aid) = false := by
        simp [hx]
      have hfx : (if (x.id == aid) = true
          then { x with timeOut := some t } else x) = x := by
        simp [hxne]
      rw [List.map_cons, hfx, List.find?_cons]
      simp only [hxne]
      exact ih hnd.2 hmem

/-! ## Claims -/

/-- C1: the check-in operation implements the three-state machine for a
pair: with no attendance row it inserts one carrying `timeIn = now`,
`timeOut = null` and responds `"in"`; with an open row it stamps
`timeOut = now`, leaves every other column (in particular `timeIn`)
unchanged, and responds `"out"`; with a completed row it answers the
`AlreadyComplete` error and leaves the database untouched. -/
theorem checkin_three_state_machine (db : DB) (e s : String) (now : Nat)
    (fid : String)
    (hnd : (db.attendance.map (fun r => r.id)).Nodup) :
    (getAttendance db e s = none →
      checkinCore db e s now fid =
        ({ db with attendance :=
            db.attendance ++ [⟨fid, e, s, some now, none⟩] },
         .ok (.tin ⟨fid, e, s, some now, none⟩))) ∧
    (∀ att, getAttendance db e s = some att → att.timeOut = none →
      (checkinCore db e s now fid).2 =
        .ok (.tout (some { att with timeOut := some now })) ∧
      getAttendance (checkinCore db e s now fid).1 e s =
        some { att with timeOut := some now }) ∧
    (∀ att, getAttendance db e s = some att → att.timeOut ≠ none →
      checkinCore db e s now fid =
        (db, .error ⟨400, "Attendance already complete"⟩)) := by
  refine ⟨fun h => ?_, fun att h hto => ?_, fun att h hto => ?_⟩
  · simp [checkinCore, checkinLookup, checkinAct, createAttendance, h]
  · have hmem := List.mem_of_find?_eq_some h
    have hcc : checkinCore db e s now fid =
        ({ db with attendance := db.attendance.map (fun r =>
            if r.id == att.id then { r with timeOut := some now }
            else r) },
          .ok (.tout ((db.attendance.map (fun r =>
            if r.id == att.id then { r with timeOut := some now }
            else r)).find? (fun r => r.id == att.id)))) := by
      simp [checkinCore, checkinLookup, checkinAct, h, hto,
        updateAttendanceTimeOut]
    have hpres : ∀ a : AttendanceRow,
        ((fun r => r.eventId == e && r.studentId == s)
          (if a.id == att.id then { a with timeOut := some now }
           else a)) =
        ((fun r => r.eventId == e && r.studentId == s) a) := by
      intro a
      by_cases hida : (a.id == att.id) = true <;> simp [hida]
    constructor
    · rw [hcc]
      simp only []
      rw [attendance_find?_update now att.id db.attendance hnd att hmem
        rfl]
    · rw [hcc]
      simp only [getAttendance]
      rw [find?_map_of_pred_invariant hpres db.attendance]
      rw [show db.attendance.find?
          (fun r => r.eventId == e && r.studentId == s) = some att from h]
      simp
  · simp [checkinCore, checkinLookup, checkinAct, h, hto]

/-- Witness for C1: the three transitions evaluated on concrete
databases. -/
theorem checkin_three_state_machine_witness :
    (checkinCore emptyDB "E" "S" 5 "a1").2 =
      .ok (.tin ⟨"a1", "E", "S", some 5, none⟩) ∧
    (checkinCore exDBOpen "E" "S" 9 "a2").2 =
      .ok (.tout (some ⟨"a1", "E", "S", some 5, some 9⟩)) ∧
    checkinCore exDBClosed "E" "S" 9 "a2" =
      (exDBClosed, .error ⟨400, "Attendance already complete"⟩) := by
  refine ⟨?_, ?_, ?_⟩
  · rw [(checkin_three_state_machine emptyDB "E" "S" 5 "a1"
      (by decide)).1 rfl]
  · exact ((checkin_three_state_machine exDBOpen "E" "S" 9 "a2"
      (by decide)).2.1 ⟨"a1", "E", "S", some 5, none⟩ rfl rfl).1
  · exact (checkin_three_state_machine exDBClosed "E" "S" 9 "a2"
      (by decide)).2.2 ⟨"a1", "E", "S", some 5, some 6⟩ rfl (by simp)

/-- The student-events listing, normalised: it is the filter of the
`events` table by an existential association match. -/
theorem visibleEvents_eq_filter (db : DB) (st : Student) :
    visibleEvents db st =
      db.events.filter (fun ev =>
        db.eventCourseSections.any
          (fun ecs => ecs.eventId == ev.id &&
            (ecs.courseId == st.courseId &&
             ecs.sectionId == st.sectionId))) := by
  simp [visibleEvents, studentEventsFilter, getAllEvents,
    getEventCourseSections, List.filter_map, List.map_map,
    Function.comp_def, List.any_filter]

/-- C2: an event appears in the student's events listing iff some
`EventCourseSection` row for that event carries exactly the student's
own `(courseId, sectionId)`; flipping any event's `isActive` flag never
changes which events are listed. -/
theorem student_events_visibility (db : DB) (st : Student) :
    (∀ ev : Event, ev ∈ visibleEvents db st ↔
      (ev ∈ db.events ∧ ∃ ecs ∈ db.eventCourseSections,
        ecs.eventId = ev.id ∧ ecs.courseId = st.courseId ∧
        ecs.sectionId = st.sectionId)) ∧
    (∀ id b,
      (visibleEvents (setEventActive db id b) st).map
        (fun ev => ev.id) =
      (visibleEvents db st).map (fun ev => ev.id)) := by
  constructor
  · intro ev
    rw [visibleEvents_eq_filter, List.mem_filter]
    simp only [List.any_eq_true, Bool.and_eq_true, beq_iff_eq]
  · intro id b
    rw [visibleEvents_eq_filter, visibleEvents_eq_filter]
    simp only [setEventActive]
    rw [List.filter_map]
    have hqf : ((fun ev : Event =>
        db.eventCourseSections.any
          (fun ecs => ecs.eventId == ev.id &&
            (ecs.courseId == st.courseId &&
             ecs.sectionId == st.sectionId))) ∘ (fun ev =>
        if ev.id == id then { ev with isActive := b } else ev)) =
        (fun ev : Event =>
        db.eventCourseSections.any
          (fun ecs => ecs.eventId == ev.id &&
            (ecs.courseId == st.courseId &&
             ecs.sectionId == st.sectionId))) := by
      funext ev
      by_cases h : ev.id = id <;> simp [beq_iff_eq, h]
    rw [hqf, List.map_map]
    have hidf : ((fun ev : Event => ev.id) ∘ (fun ev =>
        if ev.id == id then { ev with isActive := b } else ev)) =
        (fun ev : Event => ev.id) := by
      funext ev
      by_cases h : ev.id = id <;> simp [beq_iff_eq, h]
    rw [hidf]

/-- C5: the two login failure causes — no user row with the email, and
a password that does not verify against the stored hash — return the
identical `401 Invalid credentials` response value. -/
theorem login_uniform_invalid_credentials (db : DB)
    (email pwd : String) :
    (getUserByEmail db email = none →
      login db email pwd = .error ⟨401, "Invalid credentials"⟩) ∧
    (∀ u, getUserByEmail db email = some u →
      bcryptCompare pwd u.password = false →
      login db email pwd = .error ⟨401, "Invalid credentials"⟩) := by
  refine ⟨fun h => ?_, fun u h hc => ?_⟩
  · simp [login, h]
  · simp [login, h, hc]

/-- Witness for C5: unknown email and wrong password, evaluated on a
concrete database, produce the same response. -/
theorem login_uniform_invalid_credentials_witness :
    login exDBRegTaken "no@b.c" "pw" =
      .error ⟨401, "Invalid credentials"⟩ ∧
    login exDBRegTaken "a@b.c" "wrong" =
      .error ⟨401, "Invalid credentials"⟩ := by
  constructor
  · exact (login_uniform_invalid_credentials exDBRegTaken "no@b.c"
      "pw").1 rfl
  · exact (login_uniform_invalid_credentials exDBRegTaken "a@b.c"
      "wrong").2 exUser rfl rfl

/-- C4: registration with an unknown studentId fails with the
`UnknownStudentId` error and changes nothing (in particular creates no
user); with a known studentId but an already-claimed email it fails
with the `EmailAlreadyRegistered` error and changes nothing; otherwise
it succeeds, and a login with the just-registered credentials then
succeeds. -/
theorem register_student_email_gates (db : DB) (sid email pwd : String)
    (age : Nat) (bday pic fid : String) :
    (getStudentByStudentId db sid = none →
      register db sid email pwd age bday pic fid =
        (db, .error ⟨404, "Student ID not found in system"⟩)) ∧
    (∀ st u, getStudentByStudentId db sid = some st →
      getUserByEmail db email = some u →
      register db sid email pwd age bday pic fid =
        (db, .error ⟨400, "Email already registered"⟩)) ∧
    (∀ st, getStudentByStudentId db sid = some st →
      getUserByEmail db email = none →
      (register db sid email pwd age bday pic fid).2 =
        .ok "Registration successful" ∧
      login (register db sid email pwd age bday pic fid).1 email pwd =
        .ok { token := jwtSign fid, userId := fid, email := email,
              role := "student", studentId := some sid }) := by
  refine ⟨fun h => ?_, fun st u h1 h2 => ?_, fun st h1 h2 => ?_⟩
  · simp [register, h]
  · simp [register, h1, h2]
  · have h2' : db.users.find? (fun u => u.email == email) = none := h2
    constructor
    · simp [register, h1, h2]
    · simp [register, h1, h2, login, getUserByEmail, updateStudent,
        createUser, List.find?_append, h2', bcryptCompare, jwtSign]

/-- Witness for C4: the three registration outcomes on concrete
databases, the third followed by a successful login. -/
theorem register_student_email_gates_witness :
    register exDBReg "S-404" "x@y.z" "secret" 20 "2000-01-01" "" "u9" =
      (exDBReg, .error ⟨404, "Student ID not found in system"⟩) ∧
    register exDBRegTaken "S-1" "a@b.c" "secret" 20 "2000-01-01" ""
        "u9" =
      (exDBRegTaken, .error ⟨400, "Email already registered"⟩) ∧
    ((register exDBReg "S-1" "x@y.z" "secret" 20 "2000-01-01" ""
        "u9").2 = .ok "Registration successful" ∧
      login (register exDBReg "S-1" "x@y.z" "secret" 20 "2000-01-01" ""
          "u9").1 "x@y.z" "secret" =
        .ok ⟨jwtSign "u9", "u9", "x@y.z", "student", some "S-1"⟩) := by
  refine ⟨?_, ?_, ?_⟩
  · exact (register_student_email_gates exDBReg "S-404" "x@y.z"
      "secret" 20 "2000-01-01" "" "u9").1 rfl
  · exact (register_student_email_gates exDBRegTaken "S-1" "a@b.c"
      "secret" 20 "2000-01-01" "" "u9").2.1 exStudent exUser rfl rfl
  · exact (register_student_email_gates exDBReg "S-1" "x@y.z" "secret"
      20 "2000-01-01" "" "u9").2.2 exStudent rfl rfl

/-- C6: `updateSystemSettings` keeps the `system_settings` table at
zero-or-one rows: on an empty table it inserts exactly one row (absent
columns taking the schema defaults); on a non-empty table it never
inserts, preserving the row count, and the surviving first row keeps
its id. -/
theorem updateSystemSettings_singleton (db : DB) (p : SettingsPatch)
    (now : Nat) (fid : String) :
    (db.systemSettings = [] →
      (updateSystemSettings db p now fid).1.systemSettings =
        [⟨fid, p.systemName.getD "Attendance System",
          p.qrCodeEnabled.getD true, now⟩]) ∧
    (db.systemSettings ≠ [] →
      (updateSystemSettings db p now fid).1.systemSettings.length =
        db.systemSettings.length ∧
      ((updateSystemSettings db p now
          fid).1.systemSettings.head?).map (fun r => r.id) =
        (db.systemSettings.head?).map (fun r => r.id)) := by
  refine ⟨fun h => ?_, fun h => ?_⟩
  · simp [updateSystemSettings, getSystemSettings, h]
  · obtain ⟨x, xs, hh⟩ := List.exists_cons_of_ne_nil h
    simp [updateSystemSettings, getSystemSettings, hh]

/-- Witness for C6: the first write creates the single row; a second
write updates in place, preserving count and id. -/
theorem updateSystemSettings_singleton_witness :
    exDBSettings.systemSettings = [⟨"s1", "My School", true, 1⟩] ∧
    (updateSystemSettings exDBSettings ⟨none, some false⟩ 2
        "s2").1.systemSettings.length =
      exDBSettings.systemSettings.length ∧
    ((updateSystemSettings exDBSettings ⟨none, some false⟩ 2
        "s2").1.systemSettings.head?).map (fun r => r.id) =
      (exDBSettings.systemSettings.head?).map (fun r => r.id) := by
  refine ⟨?_, ?_, ?_⟩
  · exact (updateSystemSettings_singleton emptyDB
      ⟨some "My School", none⟩ 1 "s1").1 rfl
  · exact ((updateSystemSettings_singleton exDBSettings
      ⟨none, some false⟩ 2 "s2").2 (by decide)).1
  · exact ((updateSystemSettings_singleton exDBSettings
      ⟨none, some false⟩ 2 "s2").2 (by decide)).2

/-- C9: the manual check-in path checks authentication only, never the
caller's role: for every authenticated user, the handler's outcome is
exactly the attendance state machine on the resolved pair — the user
(hence the user's role) does not occur in the result. -/
theorem manual_checkin_role_blind (db : DB) (user : User)
    (msid meid : String) (st : Student) (now : Nat) (fid : String)
    (hst : getStudentByStudentId db msid = some st) :
    checkin db user ⟨none, some msid, some meid⟩ now fid =
      checkinCore db meid st.id now fid := by
  simp [checkin, hst]

/-- Witness for C9: an admin caller and a student caller drive the same
state machine on the same pair. -/
theorem manual_checkin_role_blind_witness :
    checkin exDBReg adminUser ⟨none, some "S-1", some "E"⟩ 5 "a1" =
      checkinCore exDBReg "E" "st1" 5 "a1" ∧
    checkin exDBReg studentUser ⟨none, some "S-1", some "E"⟩ 5 "a1" =
      checkinCore exDBReg "E" "st1" 5 "a1" := by
  constructor
  · exact manual_checkin_role_blind exDBReg adminUser "S-1" "E"
      exStudent 5 "a1" rfl
  · exact manual_checkin_role_blind exDBReg studentUser "S-1" "E"
      exStudent 5 "a1" rfl

/-- C10: check-in never consults the `events` table: the response and
the attendance table after a check-in are unchanged by replacing the
`events` table wholesale, and a first check-in against an eventId with
no Event row still creates the attendance row and answers `"in"`, not
a NotFound error. -/
theorem checkin_ignores_event_table (db : DB) (user : User)
    (msid meid : String) (st : Student) (now : Nat) (fid : String)
    (hst : getStudentByStudentId db msid = some st)
    (hev : ∀ ev ∈ db.events, ev.id ≠ meid)
    (hatt : getAttendance db meid st.id = none) :
    (checkin db user ⟨none, some msid, some meid⟩ now fid).2 =
      .ok (.tin ⟨fid, meid, st.id, some now, none⟩) ∧
    (∀ evs,
      (checkin { db with events := evs } user
          ⟨none, some msid, some meid⟩ now fid).2 =
        (checkin db user ⟨none, some msid, some meid⟩ now fid).2 ∧
      (checkin { db with events := evs } user
          ⟨none, some msid, some meid⟩ now fid).1.attendance =
        (checkin db user
          ⟨none, some msid, some meid⟩ now fid).1.attendance) := by
  have hst' : ∀ evs, getStudentByStudentId { db with events := evs }
      msid = some st := fun _ => hst
  have hatt' : db.attendance.find?
      (fun a => a.eventId == meid && a.studentId == st.id) = none := hatt
  constructor
  · simp [checkin, hst, checkinCore, checkinLookup, hatt, checkinAct,
      createAttendance]
  · intro evs
    constructor
    · simp [checkin, hst, hst' evs, checkinCore, checkinLookup,
        getAttendance, hatt', checkinAct, createAttendance]
    · simp [checkin, hst, hst' evs, checkinCore, checkinLookup,
        getAttendance, hatt', checkinAct, createAttendance]

/-- Witness for C10: checking in against eventId `"EV-404"`, for which
no Event row exists (the example database has no events at all),
creates the row and answers `"in"`. -/
theorem checkin_ignores_event_table_witness :
    (checkin exDBReg studentUser ⟨none, some "S-1", some "EV-404"⟩ 7
        "a1").2 = .ok (.tin ⟨"a1", "EV-404", "st1", some 7, none⟩) := by
  exact (checkin_ignores_event_table exDBReg studentUser "S-1" "EV-404"
    exStudent 7 "a1" rfl (by simp [exDBReg, emptyDB]) rfl).1

/-- C3 (divergence witness): an admin regenerates the QR of `"E1"` at
time 50, which does replace the stored payload and leaves attendance
untouched — yet a student check-in presenting the OLD payload
`⟨"E1", 1⟩` is still accepted, because the handler only extracts
`eventId` from the client-supplied payload and never compares it with
the stored `qrCodeData`. -/
theorem regenerateQr_old_payload_still_accepted :
    ((regenerateQrRoute exDBQr adminUser "E1" 50).1.events.map
      (fun ev => ev.qrCodeData)) = [⟨"E1", 50⟩] ∧
    (regenerateQrRoute exDBQr adminUser "E1" 50).1.attendance =
      exDBQr.attendance ∧
    (checkin (regenerateQrRoute exDBQr adminUser "E1" 50).1 studentUser
        ⟨some ⟨"E1", 1⟩, none, none⟩ 60 "a1").2 =
      .ok (.tin ⟨"a1", "E1", "st1", some 60, none⟩) := by
  refine ⟨rfl, rfl, rfl⟩

/-- C7 (counterexample): `GET /api/students` is a student-table CRUD
operation (its Read), yet invoked by an authenticated caller whose role
is `"student"`, not `"admin"`, it answers the full student list, not
the Forbidden error. -/
theorem student_list_not_admin_gated :
    studentUser.role = "student" ∧
    getStudentsRoute exDBQr studentUser = (exDBQr, .ok [exStudent]) ∧
    (getStudentsRoute exDBQr studentUser).2 ≠
      .error ⟨403, "Admin access required"⟩ := by
  refine ⟨rfl, rfl, fun hc => Except.noConfusion hc⟩

/-- C7 (amended): every create, update and delete operation on
students, courses, sections and events, invoked by an authenticated
caller whose role is not admin, answers the Forbidden error and leaves
the database unchanged; the list (GET) operations carry no role
check. -/
theorem admin_gate_on_mutations (db : DB) (user : User)
    (h : user.role ≠ "admin") (id fid quuid : String) (now : Nat)
    (b1 : InsertStudent) (p1 : StudentPatch) (b2 : InsertCourse)
    (p2 : CoursePatch) (b3 : InsertSect) (p3 : SectPatch)
    (b4 : InsertEvent) (p4 : EventPatch) (cs : List CourseSectionRef)
    (cso : Option (List CourseSectionRef)) (csIds : List String) :
    postStudentsRoute db user b1 fid = (db, .error adminRequired) ∧
    putStudentRoute db user id p1 = (db, .error adminRequired) ∧
    deleteStudentRoute db user id = (db, .error adminRequired) ∧
    postCoursesRoute db user b2 fid = (db, .error adminRequired) ∧
    putCourseRoute db user id p2 = (db, .error adminRequired) ∧
    deleteCourseRoute db user id = (db, .error adminRequired) ∧
    postSectionsRoute db user b3 fid = (db, .error adminRequired) ∧
    putSectionRoute db user id p3 = (db, .error adminRequired) ∧
    deleteSectionRoute db user id = (db, .error adminRequired) ∧
    postEventsRoute db user b4 cs now quuid fid csIds =
      (db, .error adminRequired) ∧
    putEventRoute db user id p4 cso csIds =
      (db, .error adminRequired) ∧
    deleteEventRoute db user id = (db, .error adminRequired) := by
  have hb : (user.role != "admin") = true := by
    simp [h]
  refine ⟨?_, ?_, ?_, ?_, ?_, ?_, ?_, ?_, ?_, ?_, ?_, ?_⟩
  · simp [postStudentsRoute, hb]
  · simp [putStudentRoute, hb]
  · simp [deleteStudentRoute, hb]
  · simp [postCoursesRoute, hb]
  · simp [putCourseRoute, hb]
  · simp [deleteCourseRoute, hb]
  · simp [postSectionsRoute, hb]
  · simp [putSectionRoute, hb]
  · simp [deleteSectionRoute, hb]
  · simp [postEventsRoute, hb]
  · simp [putEventRoute, hb]
  · simp [deleteEventRoute, hb]

/-- Witness for the amended C7: all twelve mutating operations refused
for the student-role caller on a concrete database. -/
theorem admin_gate_on_mutations_witness :
    postStudentsRoute exDBQr studentUser
        ⟨"S-2", "Bob", "C1", "SecA", none, none, none, none⟩ "f1" =
      (exDBQr, .error adminRequired) ∧
    putStudentRoute exDBQr studentUser "st1" {} =
      (exDBQr, .error adminRequired) ∧
    deleteStudentRoute exDBQr studentUser "st1" =
      (exDBQr, .error adminRequired) ∧
    postCoursesRoute exDBQr studentUser ⟨"Math", none⟩ "f1" =
      (exDBQr, .error adminRequired) ∧
    putCourseRoute exDBQr studentUser "C1" {} =
      (exDBQr, .error adminRequired) ∧
    deleteCourseRoute exDBQr studentUser "C1" =
      (exDBQr, .error adminRequired) ∧
    postSectionsRoute exDBQr studentUser ⟨"C1", "SecB"⟩ "f1" =
      (exDBQr, .error adminRequired) ∧
    putSectionRoute exDBQr studentUser "SecA" {} =
      (exDBQr, .error adminRequired) ∧
    deleteSectionRoute exDBQr studentUser "SecA" =
      (exDBQr, .error adminRequired) ∧
    postEventsRoute exDBQr studentUser
        ⟨"Fair", none, "2025-02-02", "10:00", none⟩ [] 9 "q1" "f1" [] =
      (exDBQr, .error adminRequired) ∧
    putEventRoute exDBQr studentUser "E1" {} none [] =
      (exDBQr, .error adminRequired) ∧
    deleteEventRoute exDBQr studentUser "E1" =
      (exDBQr, .error adminRequired) :=
  admin_gate_on_mutations exDBQr studentUser (by decide) "dummy" "f1"
    "q1" 9 ⟨"S-2", "Bob", "C1", "SecA", none, none, none, none⟩ {}
    ⟨"Math", none⟩ {} ⟨"C1", "SecB"⟩ {}
    ⟨"Fair", none, "2025-02-02", "10:00", none⟩ {} [] none []

/-- C8 (counterexample): the race leaves TWO attendance rows for the
pair, not one, and the persistence layer accepts the duplicate create —
the `attendance` table has a primary key on `id` only and no uniqueness
constraint on `(eventId, studentId)`, and the handler has no
retry-as-update fallback. -/
theorem checkin_race_two_rows :
    attendanceCount (checkinRace emptyDB "E" "S" 5 6 "a1" "a2")
      "E" "S" = 2 ∧
    (createAttendance
      (createAttendance emptyDB ⟨"a1", "E", "S", some 5, none⟩).1
      ⟨"a2", "E", "S", some 6, none⟩).1.attendance =
      [⟨"a1", "E", "S", some 5, none⟩,
       ⟨"a2", "E", "S", some 6, none⟩] := by
  refine ⟨rfl, rfl⟩

/-- C8 (amended): with no uniqueness constraint on
`(eventId, studentId)` and no conflict handling in the ledger, two
concurrent first check-ins that both observe the absence of a row each
insert one, leaving two attendance rows for the pair. -/
theorem checkin_race_duplicates (db : DB) (e s : String) (t1 t2 : Nat)
    (fid1 fid2 : String) (h : getAttendance db e s = none) :
    attendanceCount (checkinRace db e s t1 t2 fid1 fid2) e s = 2 := by
  have h' : db.attendance.find?
      (fun a => a.eventId == e && a.studentId == s) = none := h
  have h0 : db.attendance.countP
      (fun a => a.eventId == e && a.studentId == s) = 0 := by
    rw [List.countP_eq_zero]
    exact fun a ha => by simpa using List.find?_eq_none.mp h' a ha
  simp [checkinRace, checkinLookup, getAttendance, h', checkinAct,
    createAttendance, attendanceCount, List.countP_append, h0]

/-- Witness for the amended C8: the race evaluated on a concrete empty
table. -/
theorem checkin_race_duplicates_witness :
    attendanceCount (checkinRace emptyDB "E2" "S2" 7 8 "b1" "b2")
      "E2" "S2" = 2 :=
  checkin_race_duplicates emptyDB "E2" "S2" 7 8 "b1" "b2" rfl

end AttendanceSys
